import Mathlib

/-!
Shallow embedding of the EmotionHelper voice-interaction pipeline
(`src/app/(tabs)/explore.tsx`): configuration, the two API service
functions (`getGeminiResponse`, `convertSpeechToText`), the component
state, and the handlers (`speakResponse`, `startRecording`,
`stopRecording`), the mount-effect cleanup closure, and the button
gating read off the render tree (`RecordButton`, `ResponseView`).

Asynchronous external calls are modelled by oracle parameters: each
`await`ed operation's outcome (network success/failure, HTTP status,
response shape, thrown exception, speech callbacks) is an explicit
argument, and the handler is the pure function of the pre-state and
those outcomes. Side effects on the outside world (which services were
invoked, which files deleted) are returned as an event list.
-/

namespace EmotionHelper

/-- `CONFIG.API_KEYS` (explore.tsx lines 18-34): the two keys read from
`Constants.expoConfig?.extra`. A key may be absent (`undefined`, here
`none`) or the empty string; both are falsy in the JS truthiness tests. -/
structure Config where
  geminiKey : Option String
  googleCloudKey : Option String
deriving DecidableEq, Repr

/-- Truthiness of an optional string key, as tested by
`if (!CONFIG.API_KEYS.GEMINI)`: absent and `""` are falsy. -/
def keyPresent : Option String → Bool
  | none => false
  | some k => k != ""

/-- The exceptions the pipeline can throw, tagged by the stage that
raised them, each carrying the data needed to rebuild its JS message. -/
inductive JsErr where
  | geminiKeyMissing
  | geminiNet (m : String)
  | geminiHttp (status : Nat)
  | geminiMalformed (m : String)
  | sttNet (m : String)
  | sttHttp (status : Nat)
  | readFail (m : String)
  | stopUnloadFail (m : String)
  | deleteFail (m : String)
  | recordNull
deriving DecidableEq, Repr

/-- The `err.message` each exception carries (the literal strings of the
`throw new Error(...)` sites; for exceptions raised by the platform the
message text is the carried string). -/
def JsErr.message : JsErr → String
  | .geminiKeyMissing => "Gemini API key is not configured"
  | .geminiNet m => m
  | .geminiHttp status => "Gemini API request failed: " ++ toString status
  | .geminiMalformed m => m
  | .sttNet m => m
  | .sttHttp status => "Speech-to-Text API error: " ++ toString status
  | .readFail m => m
  | .stopUnloadFail m => m
  | .deleteFail m => m
  | .recordNull => "Cannot read properties of null (reading stopAndUnloadAsync)"

/-- The spec's error taxonomy (spec section 7). The spec states that no
kind is a typed exception in the source: classification is by the stage
that raised the failure, which is exactly the tag of `JsErr`. -/
inductive ErrKind where
  | PermissionDenied
  | CaptureFailed
  | TranscriptionFailed
  | GenerationFailed
  | SynthesisFailed
deriving DecidableEq, Repr

/-- Stage-based classification of a thrown exception (spec section 7:
"classification is done by which stage raised it"). -/
def JsErr.kind : JsErr → ErrKind
  | .geminiKeyMissing => .GenerationFailed
  | .geminiNet _ => .GenerationFailed
  | .geminiHttp _ => .GenerationFailed
  | .geminiMalformed _ => .GenerationFailed
  | .sttNet _ => .TranscriptionFailed
  | .sttHttp _ => .TranscriptionFailed
  | .readFail _ => .CaptureFailed
  | .stopUnloadFail _ => .CaptureFailed
  | .deleteFail _ => .CaptureFailed
  | .recordNull => .CaptureFailed

/-- Outcome of an `await fetch(...)` plus `response.json()`: the fetch
promise may reject (network failure), the response may be non-2xx
(`!response.ok`), or a body of shape `α` is obtained. -/
inductive FetchOutcome (α : Type) where
  | netFail (m : String)
  | httpFail (status : Nat)
  | ok (body : α)
deriving DecidableEq, Repr

/-- The part of the speech-to-text response body the code reads:
`data.results?.[0]?.alternatives?.[0]?.transcript`. `none` means some
link of that optional chain is absent (no `results`). -/
abbrev SttBody := Option String

/-- `convertSpeechToText` (lines 88-112): throws on network failure or
non-2xx status; otherwise evaluates
`data.results?.[0]?.alternatives?.[0]?.transcript || 'No speech detected'`,
so an absent path or a falsy (empty) transcript both yield the sentinel. -/
def convertSpeechToText (o : FetchOutcome SttBody) : Except JsErr String :=
  match o with
  | .netFail m => .error (.sttNet m)
  | .httpFail status => .error (.sttHttp status)
  | .ok body =>
    .ok (match body with
      | none => "No speech detected"
      | some t => if t = "" then "No speech detected" else t)

/-- The part of the generation response body the code reads:
`data.candidates[0].content.parts[0].text`. `malformed` means the path
is missing, so the member access throws a TypeError with message `m`. -/
inductive GeminiBody where
  | malformed (m : String)
  | candidatesText (t : String)
deriving DecidableEq, Repr

/-- `getGeminiResponse` (lines 45-81): throws if the key is falsy, on
network failure, on non-2xx status, or when the candidates path is
missing from the body; otherwise returns the generated text. -/
def getGeminiResponse (cfg : Config) (o : FetchOutcome GeminiBody) :
    Except JsErr String :=
  if keyPresent cfg.geminiKey = false then .error .geminiKeyMissing
  else
    match o with
    | .netFail m => .error (.geminiNet m)
    | .httpFail status => .error (.geminiHttp status)
    | .ok (.malformed m) => .error (.geminiMalformed m)
    | .ok (.candidatesText t) => .ok t

/-- The component state (lines 120-127), one field per `useState` hook.
A recording handle is identified with the URI its `getURI()` returns. -/
structure AppState where
  recording : Option String
  isRecording : Bool
  transcription : String
  isProcessing : Bool
  error : String
  geminiResponse : String
  isGeminiLoading : Bool
  isSpeaking : Bool
deriving DecidableEq, Repr

/-- The `useState` initial values: `null`, `false`, `''`, `false`, `''`,
`''`, `false`, `false`. -/
def initialState : AppState :=
  { recording := none
    isRecording := false
    transcription := ""
    isProcessing := false
    error := ""
    geminiResponse := ""
    isGeminiLoading := false
    isSpeaking := false }

/-- Observable calls to the external collaborators. -/
inductive Event where
  | speechStopCalled
  | permissionRequested
  | captureStarted
  | recStopUnload (uri : String)
  | fileRead (uri : String)
  | sttCalled
  | geminiCalled (prompt : String)
  | speakCalled (text : String)
  | fileDeleted (uri : String)
deriving DecidableEq, Repr

/-- Resolution of one `Speech.speak(text, {...})` call: the call throws,
or the utterance completes (`onDone` fires), or it fails (`onError`
fires with a stringified error `m`). -/
inductive SpeakOutcome where
  | throws (m : String)
  | done
  | errorCb (m : String)
deriving DecidableEq, Repr

/-- `speakResponse` (lines 141-159): sets `isSpeaking` true, invokes
`Speech.speak`; a thrown exception is caught and recorded, the `onDone`
callback clears `isSpeaking`, the `onError` callback records the error
and clears `isSpeaking`. The outcome is modelled as fully resolved. -/
def speakResponse (s : AppState) (text : String) (o : SpeakOutcome) :
    AppState × List Event :=
  let s1 := { s with isSpeaking := true }
  match o with
  | .throws m =>
    ({ s1 with error := "Speech Error: " ++ m, isSpeaking := false },
     [.speakCalled text])
  | .done =>
    ({ s1 with isSpeaking := false }, [.speakCalled text])
  | .errorCb m =>
    ({ s1 with error := "Speech Error: " ++ m, isSpeaking := false },
     [.speakCalled text])

/-- Result of `Audio.requestPermissionsAsync()`. -/
inductive PermissionStatus where
  | granted
  | denied
deriving DecidableEq, Repr

/-- Resolution of `Audio.setAudioModeAsync` + `Audio.Recording.createAsync`
(lines 179-185): either a recording handle (with its URI) is produced, or
one of the two awaits rejects with message `m`, landing in the catch. -/
inductive CreateOutcome where
  | ok (uri : String)
  | throws (m : String)
deriving DecidableEq, Repr

/-- `startRecording` (lines 164-192): clears `error` and
`geminiResponse`, stops ongoing speech, requests permission; on denial
sets the permission error and returns; otherwise configures audio and
creates the recording, storing the handle and setting `isRecording`;
any thrown exception is caught into `error`. Note the handler does not
touch `transcription` and does not reset `isSpeaking`. -/
def startRecording (s : AppState) (perm : PermissionStatus)
    (create : CreateOutcome) : AppState × List Event :=
  let s1 := { s with error := "", geminiResponse := "" }
  let ev : List Event := [.speechStopCalled, .permissionRequested]
  match perm with
  | .denied => ({ s1 with error := "Microphone permission not granted" }, ev)
  | .granted =>
    match create with
    | .throws m => ({ s1 with error := "Recording failed: " ++ m }, ev)
    | .ok uri =>
      ({ s1 with recording := some uri, isRecording := true },
       ev ++ [.captureStarted])

/-- The oracle outcomes of the awaits inside `stopRecording`. -/
structure StopOutcomes where
  stopUnload : Except String Unit
  readFile : Except String String
  stt : FetchOutcome SttBody
  gemini : FetchOutcome GeminiBody
  speak : SpeakOutcome
  delete : Except String Unit
deriving Repr

/-- Result of one run of `stopRecording`: the post-state, the external
calls made, and the exception the `catch` clause received, if any. -/
structure StopResult where
  state : AppState
  events : List Event
  caught : Option JsErr
deriving DecidableEq, Repr

/-- The `finally` clause of `stopRecording` (lines 230-233). -/
def stopFinally (s : AppState) : AppState :=
  { s with isProcessing := false, isGeminiLoading := false }

/-- The `catch` clause of `stopRecording` (lines 227-229). -/
def stopCatch (s : AppState) (e : JsErr) : AppState :=
  { s with error := "Processing failed: " ++ e.message }

/-- Lines 214-233 of `stopRecording`: the continuation that runs when
the transcription result arrives. It applies the result unconditionally
- the component state carries no session identifier, and no check
relates the arriving result to the session that issued the request:
`setTranscription` runs, and a non-sentinel transcript enters the
generation and synthesis stages. Cleanup (`deleteAsync`,
`setRecording(null)`) runs only if no exception was thrown before it. -/
def sttContinuation (cfg : Config) (s : AppState) (uri : String)
    (transcribed : String) (gemini : FetchOutcome GeminiBody)
    (speak : SpeakOutcome) (delete : Except String Unit) : StopResult :=
  let s1 := { s with transcription := transcribed }
  if transcribed ≠ "No speech detected" then
    let s2 := { s1 with isGeminiLoading := true }
    match getGeminiResponse cfg gemini with
    | .error e =>
      { state := stopFinally (stopCatch s2 e)
        events := [.geminiCalled transcribed]
        caught := some e }
    | .ok resp =>
      let s3 := { s2 with geminiResponse := resp }
      let sp := speakResponse s3 resp speak
      match delete with
      | .error m =>
        { state := stopFinally (stopCatch sp.1 (.deleteFail m))
          events := [.geminiCalled transcribed] ++ sp.2
          caught := some (.deleteFail m) }
      | .ok _ =>
        { state := stopFinally { sp.1 with recording := none }
          events := [.geminiCalled transcribed] ++ sp.2 ++ [.fileDeleted uri]
          caught := none }
  else
    match delete with
    | .error m =>
      { state := stopFinally (stopCatch s1 (.deleteFail m))
        events := []
        caught := some (.deleteFail m) }
    | .ok _ =>
      { state := stopFinally { s1 with recording := none }
        events := [.fileDeleted uri]
        caught := none }

/-- `stopRecording` (lines 197-234): clears `isRecording`, sets
`isProcessing`, clears `error`; then inside the try: stops and unloads
the recording (a `null` handle makes the member access throw), reads
the file to base64, transcribes, and hands the transcription result to
`sttContinuation`. Any exception lands in the catch, which records
`Processing failed: <message>`; the finally clears the two progress
flags. Note cleanup of the audio file is at the end of the try, so an
exception in an earlier stage skips it. -/
def stopRecording (cfg : Config) (s : AppState) (o : StopOutcomes) :
    StopResult :=
  let s0 := { s with isRecording := false, isProcessing := true, error := "" }
  match s.recording with
  | none =>
    { state := stopFinally (stopCatch s0 .recordNull)
      events := []
      caught := some JsErr.recordNull }
  | some uri =>
    match o.stopUnload with
    | .error m =>
      { state := stopFinally (stopCatch s0 (.stopUnloadFail m))
        events := [.recStopUnload uri]
        caught := some (.stopUnloadFail m) }
    | .ok _ =>
      match o.readFile with
      | .error m =>
        { state := stopFinally (stopCatch s0 (.readFail m))
          events := [.recStopUnload uri, .fileRead uri]
          caught := some (.readFail m) }
      | .ok _b64 =>
        match convertSpeechToText o.stt with
        | .error e =>
          { state := stopFinally (stopCatch s0 e)
            events := [.recStopUnload uri, .fileRead uri, .sttCalled]
            caught := some e }
        | .ok transcribed =>
          let r := sttContinuation cfg s0 uri transcribed o.gemini o.speak o.delete
          { state := r.state
            events := [.recStopUnload uri, .fileRead uri, .sttCalled] ++ r.events
            caught := r.caught }

/-- The cleanup closure registered by the mount effect (lines 130-135).
It calls `recording?.stopAndUnloadAsync()` and `Speech.stop()`, where
`recording` is the value the closure captured. Because the effect's
dependency array is `[]`, the closure is created once, on the first
render, and captures that render's `recording` value - the `useState`
initial value `null`. -/
def cleanupClosure (capturedRecording : Option String) : List Event :=
  (match capturedRecording with
    | some uri => [Event.recStopUnload uri]
    | none => []) ++ [Event.speechStopCalled]

/-- The events emitted at component teardown: the mount-time closure
runs with the `recording` value of the first render. -/
def teardownEvents : List Event :=
  cleanupClosure initialState.recording

/-- `RecordButton` disabling (line 247):
`isDisabled = isProcessing || isGeminiLoading || isSpeaking`. -/
def recordButtonDisabled (s : AppState) : Bool :=
  s.isProcessing || s.isGeminiLoading || s.isSpeaking

/-- Replay button disabling (`ResponseView`, line 317): `disabled={isSpeaking}`. -/
def replayButtonDisabled (s : AppState) : Bool :=
  s.isSpeaking

/-- Pressing the record button (lines 244-249): a disabled
`TouchableOpacity` ignores the press; otherwise `onPress` is
`stopRecording` while recording and `startRecording` otherwise. -/
def pressRecordButton (cfg : Config) (s : AppState) (perm : PermissionStatus)
    (create : CreateOutcome) (o : StopOutcomes) : AppState × List Event :=
  if recordButtonDisabled s then (s, [])
  else if s.isRecording then
    let r := stopRecording cfg s o
    (r.state, r.events)
  else startRecording s perm create

/-- `onReplay` (line 269): `() => speakResponse(geminiResponse)`. -/
def onReplay (s : AppState) (o : SpeakOutcome) : AppState × List Event :=
  speakResponse s s.geminiResponse o

/-- Pressing the replay button: ignored while disabled, else `onReplay`. -/
def pressReplayButton (s : AppState) (o : SpeakOutcome) : AppState × List Event :=
  if replayButtonDisabled s then (s, []) else onReplay s o

/-- Iterating `onReplay` over a list of speak outcomes, collecting the
events of each press. -/
def replayIter (s : AppState) : List SpeakOutcome → AppState × List Event
  | [] => (s, [])
  | o :: os =>
    let r := onReplay s o
    let rest := replayIter r.1 os
    (rest.1, r.2 ++ rest.2)

/-- The spec's observable session phase (spec section 4.1), read off the
component flags the way the UI reads them: `isSpeaking` marks Speaking,
`isGeminiLoading` marks Generating, `isProcessing` (alone) marks
Transcribing, `isRecording` marks Recording, a non-empty `error` marks
Error, and otherwise the component is Idle. -/
inductive SpecState where
  | Idle
  | Recording
  | Transcribing
  | Generating
  | Speaking
  | Error
deriving DecidableEq, Repr

/-- Flag-to-phase abstraction. -/
def phase (s : AppState) : SpecState :=
  if s.isSpeaking then .Speaking
  else if s.isGeminiLoading then .Generating
  else if s.isProcessing then .Transcribing
  else if s.isRecording then .Recording
  else if s.error != "" then .Error
  else .Idle

/-- One full session: `begin` (`startRecording`) followed by `end`
(`stopRecording`), with the given oracle outcomes. -/
def session (cfg : Config) (s : AppState) (perm : PermissionStatus)
    (create : CreateOutcome) (o : StopOutcomes) : StopResult :=
  let st := startRecording s perm create
  let r := stopRecording cfg st.1 o
  { r with events := st.2 ++ r.events }

/-- True for events that invoke the generation or synthesis service. -/
def isDownstream : Event → Bool
  | .geminiCalled _ => true
  | .speakCalled _ => true
  | _ => false

/-- True for events that invoke the synthesis service. -/
def isSynthesisCall : Event → Bool
  | .speakCalled _ => true
  | _ => false

/-- The mid-session state used for the C1 evaluation: a live recording
handle at `rec.wav`. -/
def c1State : AppState :=
  { initialState with recording := some "rec.wav", isRecording := true }

/-- The C1 oracle outcomes: recording stops and reads fine, but the
speech-to-text call returns HTTP 500. -/
def c1Outcomes : StopOutcomes :=
  { stopUnload := .ok ()
    readFile := .ok "QUJD"
    stt := .httpFail 500
    gemini := .ok (.candidatesText "unused")
    speak := .done
    delete := .ok () }

/-- The state of a fresh superseding session B: a live recording handle
at `b.wav` and nothing transcribed yet. -/
def c2FreshSession : AppState :=
  { initialState with recording := some "b.wav", isRecording := true }

end EmotionHelper

namespace EmotionHelper

/-! Helper lemmas shared by the claim theorems. -/

theorem processingFailed_ne_empty (m : String) :
    ("Processing failed: " ++ m) ≠ "" := by
  intro h
  have h2 := congrArg String.length h
  simp [String.length_append] at h2
  exact absurd h2.1 (by decide)

theorem speakResponse_fields (s : AppState) (text : String) (o : SpeakOutcome) :
    (speakResponse s text o).1.transcription = s.transcription ∧
    (speakResponse s text o).1.geminiResponse = s.geminiResponse ∧
    (speakResponse s text o).2 = [Event.speakCalled text] := by
  cases o <;> simp [speakResponse]

theorem sttContinuation_transcription (cfg : Config) (s : AppState)
    (uri t : String) (g : FetchOutcome GeminiBody) (sp : SpeakOutcome)
    (d : Except String Unit) :
    (sttContinuation cfg s uri t g sp d).state.transcription = t := by
  unfold sttContinuation getGeminiResponse
  cases keyPresent cfg.geminiKey <;>
    rcases g with m | st | body <;> (try cases body) <;> cases sp <;> cases d <;>
      first
        | rfl
        | (split <;> rfl)

end EmotionHelper

namespace EmotionHelper

/-- C10: whenever speech synthesis terminates abnormally - the
`onError` callback fires, or `Speech.speak` throws and is caught -
`speakResponse` resets the speaking flag to false (so the replay
control re-enables), records a `Speech Error:` message, and leaves the
answer text unchanged. -/
theorem C10_speak_abnormal_termination (s : AppState) (text m : String) :
    ((speakResponse s text (.throws m)).1.isSpeaking = false ∧
      (speakResponse s text (.throws m)).1.error = "Speech Error: " ++ m ∧
      (speakResponse s text (.throws m)).1.geminiResponse = s.geminiResponse ∧
      replayButtonDisabled (speakResponse s text (.throws m)).1 = false) ∧
    ((speakResponse s text (.errorCb m)).1.isSpeaking = false ∧
      (speakResponse s text (.errorCb m)).1.error = "Speech Error: " ++ m ∧
      (speakResponse s text (.errorCb m)).1.geminiResponse = s.geminiResponse ∧
      replayButtonDisabled (speakResponse s text (.errorCb m)).1 = false) := by
  simp [speakResponse, replayButtonDisabled]

/-- C6: replay is idempotent with respect to upstream stages: from any
state with a non-empty answer, any number of replays (whatever each
utterance's outcome) invokes synthesis with exactly that same answer
text each time - and emits no other external call, so capture,
transcription and generation are never re-invoked - and leaves the
transcript and the answer unchanged. -/
theorem C6_replay_idempotent (s : AppState) (os : List SpeakOutcome)
    (h : s.geminiResponse ≠ "") :
    (replayIter s os).2 = os.map (fun _ => Event.speakCalled s.geminiResponse) ∧
    (replayIter s os).1.transcription = s.transcription ∧
    (replayIter s os).1.geminiResponse = s.geminiResponse := by
  induction os generalizing s with
  | nil => simp [replayIter]
  | cons o os ih =>
    have hf := speakResponse_fields s s.geminiResponse o
    have ih2 := ih (speakResponse s s.geminiResponse o).1 (by rw [hf.2.1]; exact h)
    refine ⟨?_, ?_, ?_⟩ <;>
      simp [replayIter, onReplay, hf.2.2, hf.2.1, hf.1, ih2.1, ih2.2.1, ih2.2.2]

/-- Concrete instantiation of `C6_replay_idempotent`: two replays from
a state holding the answer `"Happy"`. -/
theorem C6_replay_idempotent_check :
    ({ initialState with geminiResponse := "Happy" } : AppState).geminiResponse ≠ "" ∧
    ((replayIter { initialState with geminiResponse := "Happy" }
          [SpeakOutcome.done, SpeakOutcome.done]).2 =
        [SpeakOutcome.done, SpeakOutcome.done].map
          (fun _ => Event.speakCalled
            ({ initialState with geminiResponse := "Happy" } : AppState).geminiResponse) ∧
      (replayIter { initialState with geminiResponse := "Happy" }
          [SpeakOutcome.done, SpeakOutcome.done]).1.transcription =
        ({ initialState with geminiResponse := "Happy" } : AppState).transcription ∧
      (replayIter { initialState with geminiResponse := "Happy" }
          [SpeakOutcome.done, SpeakOutcome.done]).1.geminiResponse =
        ({ initialState with geminiResponse := "Happy" } : AppState).geminiResponse) :=
  ⟨by decide, C6_replay_idempotent _ _ (by decide)⟩

/-- C8: evaluation of the teardown path. The cleanup closure registered
at mount captured `recording = null` (empty dependency array), so
teardown only stops speech: it never stops and unloads a recording that
became live later, although the closure applied to a live handle would
have. -/
theorem C8_teardown_stale_closure :
    teardownEvents = [Event.speechStopCalled] ∧
    Event.recStopUnload "live.wav" ∉ teardownEvents ∧
    cleanupClosure (some "live.wav") =
      [Event.recStopUnload "live.wav", Event.speechStopCalled] := by
  decide

/-- C1: evaluation of `stopRecording` at a failing transcription. The
thrown STT error jumps to the catch clause before the cleanup lines
run: the audio file at the recording URI is never deleted and the
recording handle stays set, while the session ends in the Error state. -/
theorem C1_audio_leaked_on_stt_failure :
    (stopRecording ⟨some "gk", some "ck"⟩ c1State c1Outcomes).state.recording = some "rec.wav" ∧
    Event.fileDeleted "rec.wav" ∉ (stopRecording ⟨some "gk", some "ck"⟩ c1State c1Outcomes).events ∧
    (stopRecording ⟨some "gk", some "ck"⟩ c1State c1Outcomes).caught = some (.sttHttp 500) ∧
    (stopRecording ⟨some "gk", some "ck"⟩ c1State c1Outcomes).state.error =
      "Processing failed: Speech-to-Text API error: 500" ∧
    phase (stopRecording ⟨some "gk", some "ck"⟩ c1State c1Outcomes).state = .Error := by
  decide

end EmotionHelper

namespace EmotionHelper

theorem phase_cases (s : AppState) :
    (phase s = .Speaking ↔ s.isSpeaking = true) ∧
    (phase s = .Generating ↔ (s.isSpeaking = false ∧ s.isGeminiLoading = true)) ∧
    (phase s = .Transcribing ↔
      (s.isSpeaking = false ∧ s.isGeminiLoading = false ∧ s.isProcessing = true)) := by
  by_cases hs : s.isSpeaking <;> by_cases hg : s.isGeminiLoading <;>
    by_cases hp : s.isProcessing <;> by_cases hr : s.isRecording <;>
      by_cases he : s.error = "" <;>
        simp [phase, hs, hg, hp, hr, he, bne_iff_ne]

/-- C3 counterexample: `begin` does not clear the transcript.
`startRecording` resets `error` and `geminiResponse` only, so the
transcript left by a previous session survives the new `begin`. -/
theorem C3_transcript_survives_begin :
    (startRecording { initialState with transcription := "old words" }
        .granted (.ok "u")).1.transcription = "old words" ∧
    "old words" ≠ "" := by
  decide

/-- C3 amended: from any state, `begin` clears the answer and - on a
successful begin - leaves `lastError` empty, stops ongoing speech
before requesting permission, but leaves the transcript unchanged. -/
theorem C3_begin_resets (s : AppState) (perm : PermissionStatus)
    (create : CreateOutcome) (uri : String) :
    (startRecording s perm create).1.geminiResponse = "" ∧
    (startRecording s perm create).1.transcription = s.transcription ∧
    (startRecording s perm create).2.take 2 =
      [Event.speechStopCalled, Event.permissionRequested] ∧
    (startRecording s .granted (.ok uri)).1.error = "" := by
  cases perm <;> cases create <;> simp [startRecording]

/-- C2 counterexample: the continuation that applies a transcription
result carries no session identity and checks none. Run against the
state of a fresh superseding session, a stale session's result mutates
that state: it overwrites the transcript, invokes the generation stage,
and drops the superseding session's live recording reference. -/
theorem C2_stale_result_mutates :
    (sttContinuation ⟨some "gk", some "ck"⟩ c2FreshSession "a.wav" "I am happy"
        (.ok (.candidatesText "Happy is nice")) .done (.ok ())).state ≠ c2FreshSession ∧
    (sttContinuation ⟨some "gk", some "ck"⟩ c2FreshSession "a.wav" "I am happy"
        (.ok (.candidatesText "Happy is nice")) .done (.ok ())).state.transcription =
      "I am happy" ∧
    Event.geminiCalled "I am happy" ∈
      (sttContinuation ⟨some "gk", some "ck"⟩ c2FreshSession "a.wav" "I am happy"
        (.ok (.candidatesText "Happy is nice")) .done (.ok ())).events ∧
    (sttContinuation ⟨some "gk", some "ck"⟩ c2FreshSession "a.wav" "I am happy"
        (.ok (.candidatesText "Happy is nice")) .done (.ok ())).state.recording = none := by
  decide

/-- C2 amended: there is no session-id guard - the transcription
continuation writes its result into whatever state it runs against -
and staleness is prevented operationally instead: while a stage is in
flight (here `isProcessing = true`, which holds throughout the
transcription await), the begin/end control is disabled, so no
superseding `begin` can be issued through the UI. -/
theorem C2_unconditional_apply_and_gating (cfg : Config) (s : AppState)
    (uri t : String) (g : FetchOutcome GeminiBody) (sp : SpeakOutcome)
    (d : Except String Unit) (perm : PermissionStatus) (c : CreateOutcome)
    (o : StopOutcomes) (h : s.isProcessing = true) :
    (sttContinuation cfg s uri t g sp d).state.transcription = t ∧
    recordButtonDisabled s = true ∧
    pressRecordButton cfg s perm c o = (s, []) := by
  refine ⟨sttContinuation_transcription cfg s uri t g sp d, ?_, ?_⟩
  · simp [recordButtonDisabled, h]
  · simp [pressRecordButton, recordButtonDisabled, h]

/-- Concrete instantiation of `C2_unconditional_apply_and_gating`. -/
theorem C2_unconditional_apply_check :
    ({ initialState with isProcessing := true } : AppState).isProcessing = true ∧
    ((sttContinuation ⟨some "gk", some "ck"⟩
        { initialState with isProcessing := true } "u" "hello"
        (.ok (.candidatesText "x")) .done (.ok ())).state.transcription = "hello" ∧
      recordButtonDisabled { initialState with isProcessing := true } = true ∧
      pressRecordButton ⟨some "gk", some "ck"⟩
        { initialState with isProcessing := true } .granted (.ok "u")
        ⟨.ok (), .ok "b", .ok none, .ok (.candidatesText "x"), .done, .ok ()⟩ =
        ({ initialState with isProcessing := true }, [])) :=
  ⟨rfl, C2_unconditional_apply_and_gating _ _ _ _ _ _ _ _ _ _ rfl⟩

/-- C7: action gating. Whenever the observable phase is Transcribing,
Generating or Speaking, the begin/end toggle is disabled and pressing
it has no effect (in particular an `end` issued while Transcribing
leaves the state unchanged); while Speaking, the replay control is
disabled and pressing it has no effect either. -/
theorem C7_action_gating (cfg : Config) (s : AppState)
    (perm : PermissionStatus) (c : CreateOutcome) (o : StopOutcomes)
    (osp : SpeakOutcome)
    (h : phase s = .Transcribing ∨ phase s = .Generating ∨ phase s = .Speaking) :
    recordButtonDisabled s = true ∧
    pressRecordButton cfg s perm c o = (s, []) ∧
    (phase s = .Speaking →
      replayButtonDisabled s = true ∧ pressReplayButton s osp = (s, [])) := by
  have hc := phase_cases s
  have hd : recordButtonDisabled s = true := by
    rcases h with h | h | h
    · have := hc.2.2.mp h
      simp [recordButtonDisabled, this.2.2]
    · have := hc.2.1.mp h
      simp [recordButtonDisabled, this.2]
    · have := hc.1.mp h
      simp [recordButtonDisabled, this]
  refine ⟨hd, ?_, ?_⟩
  · simp [pressRecordButton, hd]
  · intro hsp
    have hs := hc.1.mp hsp
    exact ⟨hs, by simp [pressReplayButton, replayButtonDisabled, hs]⟩

/-- Concrete instantiation of `C7_action_gating`: an `end` pressed while
Transcribing is ignored. -/
theorem C7_action_gating_check :
    (phase { initialState with isProcessing := true } = .Transcribing ∨
      phase { initialState with isProcessing := true } = .Generating ∨
      phase { initialState with isProcessing := true } = .Speaking) ∧
    (recordButtonDisabled { initialState with isProcessing := true } = true ∧
      pressRecordButton ⟨some "gk", some "ck"⟩
        { initialState with isProcessing := true } .granted (.ok "u")
        ⟨.ok (), .ok "b", .ok none, .ok (.candidatesText "x"), .done, .ok ()⟩ =
        ({ initialState with isProcessing := true }, []) ∧
      (phase { initialState with isProcessing := true } = .Speaking →
        replayButtonDisabled { initialState with isProcessing := true } = true ∧
        pressReplayButton { initialState with isProcessing := true } .done =
          ({ initialState with isProcessing := true }, []))) :=
  ⟨by decide, C7_action_gating _ _ _ _ _ _ (by decide)⟩

end EmotionHelper

namespace EmotionHelper

/-- C4: a session whose speech-to-text response contains no `results`
(or only a falsy transcript, which the `||` fallback treats the same)
ends in the Idle phase with transcript `"No speech detected"`, the
answer unset, no error, the audio resource released, and the
generation and synthesis services never invoked. -/
theorem C4_no_speech_terminal (cfg : Config) (s : AppState) (uri b : String)
    (g : FetchOutcome GeminiBody) (sp : SpeakOutcome) (body : SttBody)
    (o : StopOutcomes)
    (hsp : s.isSpeaking = false)
    (hb : body = none ∨ body = some "")
    (ho : o = { stopUnload := .ok (), readFile := .ok b, stt := .ok body,
                gemini := g, speak := sp, delete := .ok () }) :
    phase (session cfg s .granted (.ok uri) o).state = .Idle ∧
    (session cfg s .granted (.ok uri) o).state.transcription = "No speech detected" ∧
    (session cfg s .granted (.ok uri) o).state.geminiResponse = "" ∧
    (session cfg s .granted (.ok uri) o).state.error = "" ∧
    (session cfg s .granted (.ok uri) o).state.recording = none ∧
    (session cfg s .granted (.ok uri) o).events.filter isDownstream = [] := by
  subst ho
  rcases hb with hb | hb <;> subst hb <;>
    simp [session, startRecording, stopRecording, convertSpeechToText,
          sttContinuation, stopFinally, phase, hsp, isDownstream]

/-- Concrete instantiation of `C4_no_speech_terminal`. -/
theorem C4_no_speech_terminal_check :
    initialState.isSpeaking = false ∧
    (phase (session ⟨some "gk", some "ck"⟩ initialState .granted (.ok "u")
        { stopUnload := .ok (), readFile := .ok "QUJD", stt := .ok none,
          gemini := .ok (.candidatesText "x"), speak := .done,
          delete := .ok () }).state = .Idle ∧
      (session ⟨some "gk", some "ck"⟩ initialState .granted (.ok "u")
        { stopUnload := .ok (), readFile := .ok "QUJD", stt := .ok none,
          gemini := .ok (.candidatesText "x"), speak := .done,
          delete := .ok () }).state.transcription = "No speech detected" ∧
      (session ⟨some "gk", some "ck"⟩ initialState .granted (.ok "u")
        { stopUnload := .ok (), readFile := .ok "QUJD", stt := .ok none,
          gemini := .ok (.candidatesText "x"), speak := .done,
          delete := .ok () }).state.geminiResponse = "" ∧
      (session ⟨some "gk", some "ck"⟩ initialState .granted (.ok "u")
        { stopUnload := .ok (), readFile := .ok "QUJD", stt := .ok none,
          gemini := .ok (.candidatesText "x"), speak := .done,
          delete := .ok () }).state.error = "" ∧
      (session ⟨some "gk", some "ck"⟩ initialState .granted (.ok "u")
        { stopUnload := .ok (), readFile := .ok "QUJD", stt := .ok none,
          gemini := .ok (.candidatesText "x"), speak := .done,
          delete := .ok () }).state.recording = none ∧
      (session ⟨some "gk", some "ck"⟩ initialState .granted (.ok "u")
        { stopUnload := .ok (), readFile := .ok "QUJD", stt := .ok none,
          gemini := .ok (.candidatesText "x"), speak := .done,
          delete := .ok () }).events.filter isDownstream = []) :=
  ⟨rfl, C4_no_speech_terminal _ _ _ _ _ _ _ _ rfl (Or.inl rfl) rfl⟩

/-- C5: when the generation call fails - network rejection, non-2xx
status, or a body missing the candidates path - the exception is caught
at the orchestrating handler's boundary, the caught error classifies as
GenerationFailed, the session ends in the Error phase with the error
message derived from the failure, the transcript from the prior stage
is preserved, and synthesis is never invoked. -/
theorem C5_generation_failure (cfg : Config) (s : AppState) (uri b t : String)
    (sp : SpeakOutcome) (d : Except String Unit) (g : FetchOutcome GeminiBody)
    (o : StopOutcomes)
    (hsp : s.isSpeaking = false)
    (ht : t ≠ "") (ht2 : t ≠ "No speech detected")
    (hkey : keyPresent cfg.geminiKey = true)
    (hg : (∃ m, g = .netFail m) ∨ (∃ st, g = .httpFail st) ∨
      (∃ m, g = .ok (.malformed m)))
    (ho : o = { stopUnload := .ok (), readFile := .ok b, stt := .ok (some t),
                gemini := g, speak := sp, delete := d }) :
    (session cfg s .granted (.ok uri) o).caught.map JsErr.kind =
      some .GenerationFailed ∧
    (session cfg s .granted (.ok uri) o).state.error = "Processing failed: " ++
      ((session cfg s .granted (.ok uri) o).caught.map JsErr.message).getD "" ∧
    phase (session cfg s .granted (.ok uri) o).state = .Error ∧
    (session cfg s .granted (.ok uri) o).state.transcription = t ∧
    (session cfg s .granted (.ok uri) o).events.filter isSynthesisCall = [] := by
  subst ho
  rcases hg with ⟨m, hg⟩ | ⟨st, hg⟩ | ⟨m, hg⟩ <;> subst hg <;>
    simp [session, startRecording, stopRecording, convertSpeechToText,
          sttContinuation, getGeminiResponse, stopFinally, stopCatch, phase,
          JsErr.kind, JsErr.message, hsp, ht, ht2, hkey, isSynthesisCall,
          bne_iff_ne, processingFailed_ne_empty]

/-- Concrete instantiation of `C5_generation_failure`: generation
returns HTTP 500. -/
theorem C5_generation_failure_check :
    initialState.isSpeaking = false ∧
    ("I am sad" ≠ "") ∧
    ("I am sad" ≠ "No speech detected") ∧
    keyPresent (Config.mk (some "gk") (some "ck")).geminiKey = true ∧
    ((session ⟨some "gk", some "ck"⟩ initialState .granted (.ok "u")
        { stopUnload := .ok (), readFile := .ok "QUJD",
          stt := .ok (some "I am sad"), gemini := .httpFail 500,
          speak := .done, delete := .ok () }).caught.map JsErr.kind =
        some .GenerationFailed ∧
      (session ⟨some "gk", some "ck"⟩ initialState .granted (.ok "u")
        { stopUnload := .ok (), readFile := .ok "QUJD",
          stt := .ok (some "I am sad"), gemini := .httpFail 500,
          speak := .done, delete := .ok () }).state.error =
        "Processing failed: " ++
          ((session ⟨some "gk", some "ck"⟩ initialState .granted (.ok "u")
            { stopUnload := .ok (), readFile := .ok "QUJD",
              stt := .ok (some "I am sad"), gemini := .httpFail 500,
              speak := .done, delete := .ok () }).caught.map JsErr.message).getD "" ∧
      phase (session ⟨some "gk", some "ck"⟩ initialState .granted (.ok "u")
        { stopUnload := .ok (), readFile := .ok "QUJD",
          stt := .ok (some "I am sad"), gemini := .httpFail 500,
          speak := .done, delete := .ok () }).state = .Error ∧
      (session ⟨some "gk", some "ck"⟩ initialState .granted (.ok "u")
        { stopUnload := .ok (), readFile := .ok "QUJD",
          stt := .ok (some "I am sad"), gemini := .httpFail 500,
          speak := .done, delete := .ok () }).state.transcription = "I am sad" ∧
      (session ⟨some "gk", some "ck"⟩ initialState .granted (.ok "u")
        { stopUnload := .ok (), readFile := .ok "QUJD",
          stt := .ok (some "I am sad"), gemini := .httpFail 500,
          speak := .done, delete := .ok () }).events.filter isSynthesisCall = []) :=
  ⟨rfl, by decide, by decide, rfl,
    C5_generation_failure _ _ _ _ _ _ _ _ _ rfl (by decide) (by decide) rfl
      (Or.inr (Or.inl ⟨500, rfl⟩)) rfl⟩

/-- C9 counterexample: with the Gemini key absent, `begin` is still
accepted - `startRecording` consults no configuration and proceeds to
Recording without error - and the missing key surfaces only later, as a
runtime error in the generation stage of a running session. -/
theorem C9_no_startup_check :
    (startRecording initialState .granted (.ok "u")).1.isRecording = true ∧
    (startRecording initialState .granted (.ok "u")).1.error = "" ∧
    (session ⟨none, some "ck"⟩ initialState .granted (.ok "u")
        { stopUnload := .ok (), readFile := .ok "QUJD",
          stt := .ok (some "I am sad"), gemini := .ok (.candidatesText "x"),
          speak := .done, delete := .ok () }).caught = some .geminiKeyMissing ∧
    (session ⟨none, some "ck"⟩ initialState .granted (.ok "u")
        { stopUnload := .ok (), readFile := .ok "QUJD",
          stt := .ok (some "I am sad"), gemini := .ok (.candidatesText "x"),
          speak := .done, delete := .ok () }).state.error =
      "Processing failed: Gemini API key is not configured" := by
  decide

/-- C9 amended: no startup validation exists. `begin` is accepted
regardless of configuration (`startRecording` consults no key), and a
falsy generation key is detected only at the generation stage inside a
running session, surfacing as that session's runtime error message. The
speech key is never checked locally at all. -/
theorem C9_key_checked_at_use (cfg : Config) (s : AppState) (uri b t : String)
    (sp : SpeakOutcome) (d : Except String Unit) (g : FetchOutcome GeminiBody)
    (o : StopOutcomes)
    (hkey : keyPresent cfg.geminiKey = false)
    (ht : t ≠ "") (ht2 : t ≠ "No speech detected")
    (ho : o = { stopUnload := .ok (), readFile := .ok b, stt := .ok (some t),
                gemini := g, speak := sp, delete := d }) :
    (startRecording s .granted (.ok uri)).1.isRecording = true ∧
    (startRecording s .granted (.ok uri)).1.error = "" ∧
    (session cfg s .granted (.ok uri) o).caught = some .geminiKeyMissing ∧
    (session cfg s .granted (.ok uri) o).state.error =
      "Processing failed: Gemini API key is not configured" := by
  subst ho
  refine ⟨by simp [startRecording], by simp [startRecording], ?_, ?_⟩ <;>
    simp [session, startRecording, stopRecording, convertSpeechToText,
          sttContinuation, getGeminiResponse, stopFinally, stopCatch,
          JsErr.message, ht, ht2, hkey]

/-- Concrete instantiation of `C9_key_checked_at_use`. -/
theorem C9_key_checked_at_use_check :
    keyPresent (Config.mk none (some "ck")).geminiKey = false ∧
    ("hello" ≠ "") ∧
    ("hello" ≠ "No speech detected") ∧
    ((startRecording initialState .granted (.ok "u")).1.isRecording = true ∧
      (startRecording initialState .granted (.ok "u")).1.error = "" ∧
      (session ⟨none, some "ck"⟩ initialState .granted (.ok "u")
        { stopUnload := .ok (), readFile := .ok "QUJD",
          stt := .ok (some "hello"), gemini := .ok (.candidatesText "x"),
          speak := .done, delete := .ok () }).caught = some .geminiKeyMissing ∧
      (session ⟨none, some "ck"⟩ initialState .granted (.ok "u")
        { stopUnload := .ok (), readFile := .ok "QUJD",
          stt := .ok (some "hello"), gemini := .ok (.candidatesText "x"),
          speak := .done, delete := .ok () }).state.error =
        "Processing failed: Gemini API key is not configured") :=
  ⟨rfl, by decide, by decide,
    C9_key_checked_at_use _ _ _ _ _ _ _ _ _ rfl (by decide) (by decide) rfl⟩

end EmotionHelper
